import Mathlib

/-!
Shallow embedding of the chronoAI notification scheduling and escalation
engine (src/main.py, src/scheduler.py, src/tts_engine.py,
src/event_manager.py, src/src/chronoai/services/scheduler.py).

Times are rationals measured in seconds; `reminder_time` and
`snooze_duration` are in minutes, converted with a factor of 60 exactly as
the Python code builds `timedelta(minutes=...)` offsets.  A Python
datetime string is represented by its parse result: `Option Rat`, where
`none` stands for a value on which `dateutil.parser.isoparse` raises
(ParserError or TypeError).
-/

/-- A normalized calendar event dictionary as consumed by `src/main.py` and
produced by `src/event_manager.py`: `id`, `title`, and the `start_time`
string represented by its parse result (`none` when `isoparse` raises). -/
structure Event where
  id : String
  title : String
  start_time : Option ℚ
deriving DecidableEq

/-- An event of the `src/src/chronoai` variant of the scheduler; there
`start_time` is already a datetime object, never a string. -/
structure CEvent where
  id : String
  title : String
  start_time : ℚ
deriving DecidableEq

/-- The callback stored in a scheduled job. -/
inductive JobAction where
  | speak (text : String) (volume : ℚ)
  | timeoutFor (e : Event)
  | notifyFlow (e : Event)
  | recurringSync
  | showNotification (e : CEvent)
deriving DecidableEq

/-- A pending APScheduler job: its id, run date and callback. -/
structure Job where
  id : String
  runAt : ℚ
  action : JobAction
deriving DecidableEq

inductive LogEntry where
  | info (msg : String)
  | warning (msg : String)
  | errorMsg (msg : String)
deriving DecidableEq

/-- The job table of the wrapped `BackgroundScheduler`, together with the
log lines the wrapper writes. -/
structure SchedState where
  jobs : List Job
  log : List LogEntry
deriving DecidableEq

inductive SchedErr where
  | conflictingId
deriving DecidableEq

namespace Scheduler

/-- `Scheduler.add_job` invoked with `replace_existing=True` (the form used
by `schedule_notifications` and `on_snoozed` in `src/main.py`): APScheduler
replaces any pending job carrying the same id. -/
def add_job_replace (s : SchedState) (j : Job) : SchedState :=
  { jobs := j :: s.jobs.filter (fun k => k.id != j.id),
    log := .info ("Added job " ++ j.id) :: s.log }

/-- `src/scheduler.py`, `Scheduler.add_job`: delegates to
`BackgroundScheduler.add_job`, which raises `ConflictingIdError` when a
pending job already carries the requested id and `replace_existing` was not
passed as `True` (its default is `False`). -/
def add_job (s : SchedState) (j : Job) (replaceExisting : Bool) :
    Except SchedErr SchedState :=
  if s.jobs.any (fun k => k.id == j.id) && !replaceExisting then
    .error .conflictingId
  else
    .ok (add_job_replace s j)

/-- `src/scheduler.py`, `Scheduler.remove_job`: removes the pending job of
that id, catching `JobLookupError` and logging a warning when the id is
absent, so the call always returns normally. -/
def remove_job (s : SchedState) (jid : String) : SchedState :=
  if s.jobs.any (fun k => k.id == jid) then
    { jobs := s.jobs.filter (fun k => k.id != jid),
      log := .info ("Successfully removed job " ++ jid) :: s.log }
  else
    { s with
      log := .warning ("Could not remove job " ++ jid ++ ": Job not found.") :: s.log }

end Scheduler

/-- `src/tts_engine.py`, `TTSEngine` state: the `engine`/`_initialized`
availability collapsed into one flag (the engine object exists exactly when
initialization succeeded), the `_is_speaking` flag, and the record of
utterances handed to a worker thread, most recent first. -/
structure TTS where
  initialized : Bool
  isSpeaking : Bool
  spoken : List (String × ℚ)
  log : List LogEntry
deriving DecidableEq

namespace TTSEngine

/-- `TTSEngine.speak`: rejects an overlapping request with a warning,
rejects when the engine failed to initialize, and otherwise marks the
engine speaking and starts a worker thread; `_speak_worker` clamps the
volume with `max(0.0, min(1.0, volume))`. -/
def speak (t : TTS) (text : String) (volume : ℚ) : TTS :=
  if t.isSpeaking then
    { t with
      log := .warning "TTS Engine is already speaking. New request ignored." :: t.log }
  else if !t.initialized then
    { t with log := .errorMsg "Cannot speak, TTS Engine is not initialized." :: t.log }
  else
    { t with
      isSpeaking := true,
      spoken := (text, max 0 (min 1 volume)) :: t.spoken }

/-- `TTSEngine.stop`: a no-op when nothing is speaking or the engine is
absent; otherwise stops the utterance and clears `_is_speaking`. -/
def stop (t : TTS) : TTS :=
  if !t.isSpeaking || !t.initialized then t
  else
    { t with isSpeaking := false, log := .info "Stopping current speech." :: t.log }

/-- The worker thread finishing naturally: the `finally` block of
`_speak_worker` clears `_is_speaking`. -/
def finish (t : TTS) : TTS := { t with isSpeaking := false }

end TTSEngine

/-- The settings dictionary of `src/main.py` after `load_settings` supplied
its defaults. -/
structure Settings where
  user_name : String
  reminder_time : ℚ
  snooze_duration : ℚ
deriving DecidableEq

/-- The mutable state of the `ChronoAI` application object touched by the
notification flow: scheduler, TTS engine, the event list shown in the main
window, tray toasts (most recent first) and the current popup. -/
structure AppState where
  sched : SchedState
  tts : TTS
  displayed : List Event
  toasts : List (String × String)
  popup : Option String
  settings : Settings
deriving DecidableEq

/-- Character-list version of the Python prefix test. -/
def listPref : List Char → List Char → Bool
  | [], _ => true
  | _ :: _, [] => false
  | c :: cs, d :: ds => c == d && listPref cs ds

/-- Python `s.startswith(p)`. -/
def startswith (s p : String) : Bool := listPref p.data s.data

/-- Job id of escalation step `i` of an event, as interpolated in
`trigger_notification_flow`. -/
def stepId (eid : String) (i : Nat) : String :=
  "notification_step_" ++ eid ++ "_" ++ toString i

/-- Job id of the timeout job of an event. -/
def timeoutId (eid : String) : String := "notification_timeout_" ++ eid

/-- Job id of the top-level notification job of an event. -/
def notifId (eid : String) : String := "event_notification_" ++ eid

/-- Every job id the code can ever create for one event: its top-level
notification job, its three escalation step jobs and its timeout job. -/
def sessionJobIds (eid : String) : List String :=
  [notifId eid, stepId eid 0, stepId eid 1, stepId eid 2, timeoutId eid]

/-- One entry of the escalating audio sequence. -/
structure Step where
  text : String
  volume : ℚ
  delay : ℚ
deriving DecidableEq

namespace ChronoAI

/-- The escalating audio sequence literal of `trigger_notification_flow`. -/
def sequence (userName : String) : List Step :=
  [ ⟨"Psst, " ++ userName ++ "...", 0.2, 0⟩,
    ⟨"Hey " ++ userName ++ "...", 0.4, 3.0⟩,
    ⟨userName ++ "!", 0.75, 3.0⟩ ]

/-- Stand-in for the `strftime` rendering used inside the spoken details
and the snooze toast; the exact digits are immaterial to every property
proved below. -/
def time_str (t : ℚ) : String := toString t.num ++ ":" ++ toString t.den

/-- The full-detail utterance built identically in `on_acknowledged` and
`on_timeout`. -/
def details_text (e : Event) (st : ℚ) : String :=
  "You have a meeting at " ++ time_str st ++ " titled " ++ e.title ++
    ". Just wanted to let you know."

/-- The scheduling loop of `trigger_notification_flow`: iterates the
sequence carrying `current_delay`, schedules each step at
`base_time + current_delay`, and only afterwards adds that step delay.
The `add_job` calls pass no `replace_existing` flag. -/
def scheduleSteps (eid : String) (base : ℚ) :
    List Step → Nat → ℚ → SchedState → Except SchedErr SchedState
  | [], _, _, s => .ok s
  | st :: rest, i, cur, s =>
      match Scheduler.add_job s ⟨stepId eid i, base + cur, .speak st.text st.volume⟩ false with
      | .error err => .error err
      | .ok s2 => scheduleSteps eid base rest (i + 1) (cur + st.delay) s2

/-- `src/main.py`, `trigger_notification_flow`: shows the popup, schedules
the three escalation steps and then the timeout job at
`base_time + total_sequence_duration` where
`total_sequence_duration = sum(delays) + 1.5`. -/
def trigger_notification_flow (a : AppState) (e : Event) (now : ℚ) :
    Except SchedErr AppState :=
  let seq := sequence a.settings.user_name
  let total := (seq.map Step.delay).sum + 1.5
  match scheduleSteps e.id now seq 0 0 a.sched with
  | .error err => .error err
  | .ok s =>
      match Scheduler.add_job s ⟨timeoutId e.id, now + total, .timeoutFor e⟩ false with
      | .error err => .error err
      | .ok s2 => .ok { a with popup := some e.title, sched := s2 }

/-- The removal block shared by `on_acknowledged` and `on_snoozed`:
`for i in range(len(sequence))` removes the three step jobs, then the
timeout job. -/
def remove_session_jobs (s : SchedState) (eid : String) : SchedState :=
  Scheduler.remove_job
    (Scheduler.remove_job
      (Scheduler.remove_job
        (Scheduler.remove_job s (stepId eid 0)) (stepId eid 1)) (stepId eid 2))
    (timeoutId eid)

/-- The `on_acknowledged` closure of `trigger_notification_flow`: stops the
audio, removes the session jobs, re-parses `start_time` and speaks the full
details at volume 0.8.  No resolution flag exists or is checked; `isoparse`
raising on a malformed `start_time` propagates out of the Qt slot. -/
def on_acknowledged (a : AppState) (e : Event) : Except String AppState :=
  let t := TTSEngine.stop a.tts
  let s := remove_session_jobs a.sched e.id
  match e.start_time with
  | none => .error "ParserError"
  | some st =>
      .ok { a with tts := TTSEngine.speak t (details_text e st) 0.8, sched := s }

/-- The `on_timeout` closure: closes a visible popup and speaks the full
details; it neither stops running audio nor checks any resolution state. -/
def on_timeout (a : AppState) (e : Event) : Except String AppState :=
  let a2 := if a.popup.isSome then { a with popup := none } else a
  match e.start_time with
  | none => .error "ParserError"
  | some st =>
      .ok { a2 with tts := TTSEngine.speak a2.tts (details_text e st) 0.8 }

/-- The `on_snoozed` closure: stops audio, removes the session jobs,
re-registers `event_notification_<id>` at `now + snooze_duration` with
`replace_existing=True`, and shows the tray toast. -/
def on_snoozed (a : AppState) (e : Event) (now : ℚ) : AppState :=
  let snooze := a.settings.snooze_duration
  let t := TTSEngine.stop a.tts
  let s := remove_session_jobs a.sched e.id
  let s2 := Scheduler.add_job_replace s ⟨notifId e.id, now + snooze * 60, .notifyFlow e⟩
  { a with
    tts := t, sched := s2,
    toasts := ("Snoozed",
        "Reminder for " ++ e.title ++ " snoozed for " ++ time_str snooze ++ " minutes.")
      :: a.toasts }

/-- The purge loop opening `schedule_notifications`: iterate a snapshot of
`get_jobs()` and remove every job whose id starts with
`event_notification_`. -/
def purge_notification_jobs (s : SchedState) : SchedState :=
  s.jobs.foldl
    (fun st j =>
      if startswith j.id "event_notification_" then Scheduler.remove_job st j.id else st)
    s

/-- The per-event body of the `schedule_notifications` loop: parse the
start time (a failure is logged and the event skipped), compute the
notification time, and schedule only strictly future notifications, with
`replace_existing=True`. -/
def schedule_event (rem now : ℚ) (a : AppState) (e : Event) : AppState :=
  match e.start_time with
  | none =>
      { a with
        sched := { a.sched with
          log := .errorMsg ("Could not schedule notification for event " ++ e.id)
            :: a.sched.log } }
  | some st =>
      if now < st - rem * 60 then
        { a with
          sched := Scheduler.add_job_replace a.sched
            ⟨notifId e.id, st - rem * 60, .notifyFlow e⟩ }
      else a

/-- `src/main.py`, `schedule_notifications`. -/
def schedule_notifications (a : AppState) (events : List Event) (now : ℚ) : AppState :=
  let a2 := { a with sched := purge_notification_jobs a.sched }
  events.foldl (schedule_event a.settings.reminder_time now) a2

/-- `src/main.py`, `sync_calendars`: tray toast, fetch (the fetched list is
a parameter standing for the `get_unified_events` collaborator call),
display all fetched events, then schedule notifications. -/
def sync_calendars (a : AppState) (events : List Event) (now : ℚ) : AppState :=
  let a2 := { a with toasts := ("ChronoAI", "Syncing calendars...") :: a.toasts }
  let a3 := { a2 with displayed := events }
  schedule_notifications a3 events now

end ChronoAI

/-- The two calendar collaborators of `EventManager`: whether a token is
present in the keyring, and what `fetch_events` returns. -/
structure Providers where
  googleConnected : Bool
  zohoConnected : Bool
  googleEvents : List Event
  zohoEvents : List Event

namespace EventManager

/-- The sort key of `get_unified_events`; only compared between events that
all carry a parseable start time. -/
def startKey (e : Event) : ℚ := e.start_time.getD 0

/-- The ordering `list.sort(key=isoparse(start_time))` sorts by. -/
def startLE (a b : Event) : Prop := startKey a ≤ startKey b

instance : DecidableRel startLE :=
  fun a b => inferInstanceAs (Decidable (startKey a ≤ startKey b))

instance : IsTotal Event startLE := ⟨fun a b => le_total (startKey a) (startKey b)⟩

instance : IsTrans Event startLE := ⟨fun _ _ _ => le_trans⟩

/-- The merged pull of `get_unified_events`: Google events (when a token is
present) followed by Zoho events (when a token is present). -/
def all_events (p : Providers) : List Event :=
  (if p.googleConnected then p.googleEvents else []) ++
    (if p.zohoConnected then p.zohoEvents else [])

/-- `src/event_manager.py`, `get_unified_events`: returns `[]` when the
merged list is empty, otherwise sorts it in place with Python's stable sort
on the parsed start times.  When some key raises (ParserError or
TypeError), CPython has computed the keys up front without reordering the
list, the exception is caught and logged, and the list is returned in
concatenation order.  `List.insertionSort` below is stable, hence
extensionally the same function as the stable library sort. -/
def get_unified_events (p : Providers) : List Event :=
  let all := all_events p
  if all.isEmpty then []
  else if all.all (fun e => e.start_time.isSome) then
    List.insertionSort startLE all
  else all

end EventManager

namespace SchedulerService

/-- `src/src/chronoai/services/scheduler.py`, `schedule_event_notification`:
15 minutes before start, future only, `replace_existing=True`. -/
def schedule_event_notification (now : ℚ) (s : SchedState) (e : CEvent) : SchedState :=
  if now < e.start_time - 15 * 60 then
    Scheduler.add_job_replace s
      ⟨"notification_" ++ e.id, e.start_time - 15 * 60, .showNotification e⟩
  else s

/-- `src/src/chronoai/services/scheduler.py`, `SchedulerService.sync_calendars`:
stores the fetched events, then (under a comment claiming to clear
notification jobs) removes the job with id `calendar_sync` — its own
recurring registration — inside `try`/`except: pass`, and finally runs the
duplicated scheduling loop over the events. -/
def sync_calendars (s : SchedState) (events : List CEvent) (now : ℚ) : SchedState :=
  let s1 := { s with jobs := s.jobs.filter (fun j => j.id != "calendar_sync") }
  let s2 := events.foldl (schedule_event_notification now) s1
  events.foldl (schedule_event_notification now) s2

end SchedulerService

/-! ### String helper lemmas for the job-id namespaces -/

theorem str_data_append (a b : String) : (a ++ b).data = a.data ++ b.data := by
  cases a; cases b; rfl

theorem str_append_assoc (a b c : String) : (a ++ b) ++ c = a ++ (b ++ c) := by
  cases a; cases b; cases c
  show String.mk _ = String.mk _
  rw [List.append_assoc]

theorem str_append_left_cancel {p s t : String} (h : p ++ s = p ++ t) : s = t := by
  have hd : (p ++ s).data = (p ++ t).data := by rw [h]
  rw [str_data_append, str_data_append] at hd
  have h2 := List.append_cancel_left hd
  cases s; cases t; exact congrArg String.mk h2

theorem append_getElem_ne {l1 l2 : List Char} {i : Nat} (h1 : i < l1.length)
    (h2 : i < l2.length) (hne : l1[i]? ≠ l2[i]?) (a b : List Char) :
    l1 ++ a ≠ l2 ++ b := by
  intro h
  apply hne
  have e1 : (l1 ++ a)[i]? = l1[i]? := List.getElem?_append_left h1
  have e2 : (l2 ++ b)[i]? = l2[i]? := List.getElem?_append_left h2
  rw [← e1, ← e2, h]

theorem str_append_ne {p q : String} (i : Nat) (h1 : i < p.data.length)
    (h2 : i < q.data.length) (hne : p.data[i]? ≠ q.data[i]?) (s t : String) :
    p ++ s ≠ q ++ t := by
  intro h
  have hd : (p ++ s).data = (q ++ t).data := by rw [h]
  rw [str_data_append, str_data_append] at hd
  exact append_getElem_ne h1 h2 hne s.data t.data hd

theorem stepId_eq (eid : String) (i : Nat) :
    stepId eid i = "notification_step_" ++ (eid ++ ("_" ++ toString i)) := by
  unfold stepId
  rw [str_append_assoc, str_append_assoc]

theorem notifId_ne_stepId (x y : String) (i : Nat) : notifId x ≠ stepId y i := by
  rw [stepId_eq]
  exact str_append_ne 0 (by decide) (by decide) (by decide) x _

theorem notifId_ne_timeoutId (x y : String) : notifId x ≠ timeoutId y :=
  str_append_ne 0 (by decide) (by decide) (by decide) x y

theorem stepId_ne_timeoutId (x y : String) (i : Nat) : stepId x i ≠ timeoutId y := by
  rw [stepId_eq]
  exact str_append_ne 13 (by decide) (by decide) (by decide) _ y

theorem notifId_inj {x y : String} (h : notifId x = notifId y) : x = y :=
  str_append_left_cancel h

theorem stepId_ne_of_idx {x : String} {i j : Nat} (h : toString i ≠ toString j) :
    stepId x i ≠ stepId x j := by
  rw [stepId_eq, stepId_eq]
  intro he
  exact h (str_append_left_cancel (str_append_left_cancel (str_append_left_cancel he)))

theorem listPref_append (l m : List Char) : listPref l (l ++ m) = true := by
  induction l with
  | nil => rfl
  | cons c cs ih => simp [listPref, ih]

theorem startswith_notifId (x : String) :
    startswith (notifId x) "event_notification_" = true := by
  unfold startswith notifId
  rw [str_data_append]
  exact listPref_append _ _

/-! ### Scheduler evaluation lemmas -/

theorem any_beq_eq_false {l : List Job} {jid : String}
    (h : l.all (fun k => k.id != jid) = true) :
    l.any (fun k => k.id == jid) = false := by
  simp only [List.all_eq_true] at h
  simp only [List.any_eq_false]
  intro j hj
  simpa using h j hj

theorem all_bne_of_any_eq_false {l : List Job} {jid : String}
    (h : l.any (fun k => k.id == jid) = false) :
    l.all (fun k => k.id != jid) = true := by
  simp only [List.any_eq_false] at h
  simp only [List.all_eq_true]
  intro j hj
  simpa using h j hj

theorem filter_bne_eq_self {l : List Job} {jid : String}
    (h : l.all (fun k => k.id != jid) = true) :
    l.filter (fun k => k.id != jid) = l :=
  List.filter_eq_self.mpr (List.all_eq_true.mp h)

/-- Adding a job whose id is not pending succeeds (with either value of
`replace_existing`) and prepends it to the table. -/
theorem add_job_fresh (s : SchedState) (jid : String) (r : ℚ) (act : JobAction)
    (rep : Bool) (h : s.jobs.all (fun k => k.id != jid) = true) :
    Scheduler.add_job s ⟨jid, r, act⟩ rep =
      .ok ⟨⟨jid, r, act⟩ :: s.jobs, .info ("Added job " ++ jid) :: s.log⟩ := by
  have hany := any_beq_eq_false h
  simp [Scheduler.add_job, hany, Scheduler.add_job_replace, filter_bne_eq_self h]

theorem remove_job_jobs (s : SchedState) (jid : String) :
    (Scheduler.remove_job s jid).jobs = s.jobs.filter (fun k => k.id != jid) := by
  cases hb : s.jobs.any (fun k => k.id == jid) with
  | true => simp [Scheduler.remove_job, hb]
  | false =>
      simp [Scheduler.remove_job, hb, filter_bne_eq_self (all_bne_of_any_eq_false hb)]

/-- Symbolic evaluation of the step-scheduling loop of
`trigger_notification_flow` on the canonical sequence, run in a scheduler
state that holds none of the three step ids. -/
theorem scheduleSteps_eval (eid : String) (base : ℚ) (u : String) (s : SchedState)
    (h0 : s.jobs.all (fun k => k.id != stepId eid 0) = true)
    (h1 : s.jobs.all (fun k => k.id != stepId eid 1) = true)
    (h2 : s.jobs.all (fun k => k.id != stepId eid 2) = true) :
    ChronoAI.scheduleSteps eid base
      [⟨"Psst, " ++ u ++ "...", 0.2, 0⟩, ⟨"Hey " ++ u ++ "...", 0.4, 3.0⟩,
        ⟨u ++ "!", 0.75, 3.0⟩] 0 0 s = .ok
      ⟨⟨stepId eid 2, base + (0 + 0 + 3.0), .speak (u ++ "!") 0.75⟩
        :: ⟨stepId eid 1, base + (0 + 0), .speak ("Hey " ++ u ++ "...") 0.4⟩
        :: ⟨stepId eid 0, base + 0, .speak ("Psst, " ++ u ++ "...") 0.2⟩ :: s.jobs,
       .info ("Added job " ++ stepId eid 2) :: .info ("Added job " ++ stepId eid 1)
        :: .info ("Added job " ++ stepId eid 0) :: s.log⟩ := by
  have ne01 : stepId eid 0 ≠ stepId eid 1 := stepId_ne_of_idx (by decide)
  have ne02 : stepId eid 0 ≠ stepId eid 2 := stepId_ne_of_idx (by decide)
  have ne12 : stepId eid 1 ≠ stepId eid 2 := stepId_ne_of_idx (by decide)
  have A0 := add_job_fresh s (stepId eid 0) (base + 0)
    (.speak ("Psst, " ++ u ++ "...") 0.2) false h0
  have h1b : ((⟨stepId eid 0, base + 0, .speak ("Psst, " ++ u ++ "...") 0.2⟩ :: s.jobs
      : List Job).all (fun k => k.id != stepId eid 1)) = true := by
    simp only [List.all_cons, Bool.and_eq_true]
    exact ⟨by simpa using ne01, h1⟩
  have A1 := add_job_fresh
    ⟨⟨stepId eid 0, base + 0, .speak ("Psst, " ++ u ++ "...") 0.2⟩ :: s.jobs,
      .info ("Added job " ++ stepId eid 0) :: s.log⟩
    (stepId eid 1) (base + (0 + 0)) (.speak ("Hey " ++ u ++ "...") 0.4) false h1b
  have h2b : ((⟨stepId eid 1, base + (0 + 0), .speak ("Hey " ++ u ++ "...") 0.4⟩
      :: ⟨stepId eid 0, base + 0, .speak ("Psst, " ++ u ++ "...") 0.2⟩ :: s.jobs
      : List Job).all (fun k => k.id != stepId eid 2)) = true := by
    simp only [List.all_cons, Bool.and_eq_true]
    exact ⟨by simpa using ne12, by simpa using ne02, h2⟩
  have A2 := add_job_fresh
    ⟨⟨stepId eid 1, base + (0 + 0), .speak ("Hey " ++ u ++ "...") 0.4⟩
      :: ⟨stepId eid 0, base + 0, .speak ("Psst, " ++ u ++ "...") 0.2⟩ :: s.jobs,
      .info ("Added job " ++ stepId eid 1) :: .info ("Added job " ++ stepId eid 0) :: s.log⟩
    (stepId eid 2) (base + (0 + 0 + 3.0)) (.speak (u ++ "!") 0.75) false h2b
  simp only [ChronoAI.scheduleSteps, A0, A1, A2]

/-- Symbolic evaluation of `trigger_notification_flow` in a state holding
none of the four session job ids: it succeeds, opens the popup, and
schedules exactly the three step jobs and the timeout job with the run
times the loop computes. -/
theorem trigger_flow_eval (a : AppState) (e : Event) (now : ℚ)
    (h0 : a.sched.jobs.all (fun k => k.id != stepId e.id 0) = true)
    (h1 : a.sched.jobs.all (fun k => k.id != stepId e.id 1) = true)
    (h2 : a.sched.jobs.all (fun k => k.id != stepId e.id 2) = true)
    (ht : a.sched.jobs.all (fun k => k.id != timeoutId e.id) = true) :
    ChronoAI.trigger_notification_flow a e now = .ok
      { a with
        popup := some e.title,
        sched :=
          ⟨⟨timeoutId e.id, now + (0 + (3.0 + (3.0 + 0)) + 1.5), .timeoutFor e⟩
            :: ⟨stepId e.id 2, now + (0 + 0 + 3.0),
                 .speak (a.settings.user_name ++ "!") 0.75⟩
            :: ⟨stepId e.id 1, now + (0 + 0),
                 .speak ("Hey " ++ a.settings.user_name ++ "...") 0.4⟩
            :: ⟨stepId e.id 0, now + 0,
                 .speak ("Psst, " ++ a.settings.user_name ++ "...") 0.2⟩ :: a.sched.jobs,
           .info ("Added job " ++ timeoutId e.id) :: .info ("Added job " ++ stepId e.id 2)
            :: .info ("Added job " ++ stepId e.id 1)
            :: .info ("Added job " ++ stepId e.id 0) :: a.sched.log⟩ } := by
  have S := scheduleSteps_eval e.id now a.settings.user_name a.sched h0 h1 h2
  have htb : ((⟨stepId e.id 2, now + (0 + 0 + 3.0),
        .speak (a.settings.user_name ++ "!") 0.75⟩
      :: ⟨stepId e.id 1, now + (0 + 0),
           .speak ("Hey " ++ a.settings.user_name ++ "...") 0.4⟩
      :: ⟨stepId e.id 0, now + 0,
           .speak ("Psst, " ++ a.settings.user_name ++ "...") 0.2⟩ :: a.sched.jobs
      : List Job).all (fun k => k.id != timeoutId e.id)) = true := by
    simp only [List.all_cons, Bool.and_eq_true]
    refine ⟨by simpa using stepId_ne_timeoutId e.id e.id 2,
      by simpa using stepId_ne_timeoutId e.id e.id 1,
      by simpa using stepId_ne_timeoutId e.id e.id 0, ht⟩
  have AT := add_job_fresh
    ⟨⟨stepId e.id 2, now + (0 + 0 + 3.0), .speak (a.settings.user_name ++ "!") 0.75⟩
      :: ⟨stepId e.id 1, now + (0 + 0),
           .speak ("Hey " ++ a.settings.user_name ++ "...") 0.4⟩
      :: ⟨stepId e.id 0, now + 0,
           .speak ("Psst, " ++ a.settings.user_name ++ "...") 0.2⟩ :: a.sched.jobs,
      .info ("Added job " ++ stepId e.id 2) :: .info ("Added job " ++ stepId e.id 1)
        :: .info ("Added job " ++ stepId e.id 0) :: a.sched.log⟩
    (timeoutId e.id) (now + (0 + (3.0 + (3.0 + 0)) + 1.5)) (.timeoutFor e) false htb
  simp only [ChronoAI.trigger_notification_flow, ChronoAI.sequence, List.map,
    List.sum_cons, List.sum_nil, S, AT]

/-! ### C9: overlapping speech requests are rejected -/

/-- C9: a call to `TTSEngine.speak` made while `_is_speaking` is true is
rejected: it only logs a warning, starts no new speech thread, and leaves
the engine state and the in-flight utterance unchanged. -/
theorem C9_speak_rejected_while_speaking (t : TTS) (text : String) (volume : ℚ)
    (h : t.isSpeaking = true) :
    TTSEngine.speak t text volume =
      { t with
        log := .warning "TTS Engine is already speaking. New request ignored." :: t.log } := by
  simp [TTSEngine.speak, h]

/-- Witness for C9 at a concrete speaking engine. -/
theorem C9_witness :
    (⟨true, true, [("a", 1)], []⟩ : TTS).isSpeaking = true ∧
    TTSEngine.speak ⟨true, true, [("a", 1)], []⟩ "hello" 1 =
      { (⟨true, true, [("a", 1)], []⟩ : TTS) with
        log := [.warning "TTS Engine is already speaking. New request ignored."] } :=
  ⟨rfl, C9_speak_rejected_while_speaking ⟨true, true, [("a", 1)], []⟩ "hello" 1 rfl⟩

/-! ### C8: remove_job never raises -/

/-- C8: `Scheduler.remove_job` always returns normally (it is a total
function).  Afterwards no pending job carries the removed id; and when no
pending job carried the id in the first place, the job table is unchanged
and a warning is logged. -/
theorem C8_remove_job_total_and_warns (s : SchedState) (jid : String) :
    ((Scheduler.remove_job s jid).jobs.all (fun j => j.id != jid) = true) ∧
    (s.jobs.all (fun j => j.id != jid) = true →
      Scheduler.remove_job s jid =
        { s with
          log := .warning ("Could not remove job " ++ jid ++ ": Job not found.") :: s.log }) := by
  constructor
  · by_cases h : s.jobs.any (fun k => k.id == jid) = true
    · simp only [Scheduler.remove_job, h, if_true]
      simp [List.all_eq_true, List.mem_filter]
    · simp only [Scheduler.remove_job, h, if_false]
      simp only [List.any_eq_true, not_exists, not_and] at h
      simp only [List.all_eq_true]
      intro j hj
      simpa using h j hj
  · intro hall
    have h : s.jobs.any (fun k => k.id == jid) = false := by
      simp only [List.all_eq_true] at hall
      simp only [List.any_eq_false]
      intro j hj
      simpa using hall j hj
    simp [Scheduler.remove_job, h]

/-- Witness for C8: removing a missing id from a one-job table. -/
theorem C8_witness :
    ((Scheduler.remove_job ⟨[⟨"a", 1, .recurringSync⟩], []⟩ "x").jobs.all
        (fun j => j.id != "x") = true) ∧
    Scheduler.remove_job ⟨[⟨"a", 1, .recurringSync⟩], []⟩ "x" =
      { (⟨[⟨"a", 1, .recurringSync⟩], []⟩ : SchedState) with
        log := [.warning ("Could not remove job " ++ "x" ++ ": Job not found.")] } :=
  ⟨(C8_remove_job_total_and_warns ⟨[⟨"a", 1, .recurringSync⟩], []⟩ "x").1,
   (C8_remove_job_total_and_warns ⟨[⟨"a", 1, .recurringSync⟩], []⟩ "x").2 (by decide)⟩

/-! ### C3: add_job replace semantics -/

/-- Counterexample to C3 as stated: through the wrapper, a second
`add_job` with the same id and no `replace_existing` flag does not replace
the first job; it raises `ConflictingIdError` and the `t1` job stays
pending. -/
theorem C3_counterexample :
    (Scheduler.add_job ⟨[], []⟩ ⟨"j", 1, .recurringSync⟩ false).toOption.map
        (fun s => s.jobs.map (fun j => (j.id, j.runAt))) = some [("j", 1)] ∧
    Except.bind (Scheduler.add_job ⟨[], []⟩ ⟨"j", 1, .recurringSync⟩ false)
        (fun s1 => Scheduler.add_job s1 ⟨"j", 2, .recurringSync⟩ false) =
      .error .conflictingId := by
  constructor
  · rfl
  · rfl

/-- C3 amended: when the second add passes `replace_existing=True` the old
job is cancelled first and only the `t2` job of that id remains pending;
with the default `replace_existing=False` the second add raises
`ConflictingIdError` (and the `t1` job stays, as the counterexample
evaluates). -/
theorem C3_amended_replace_semantics (s : SchedState) (jid : String) (t1 t2 : ℚ)
    (a1 a2 : JobAction) :
    ((Scheduler.add_job_replace (Scheduler.add_job_replace s ⟨jid, t1, a1⟩)
        ⟨jid, t2, a2⟩).jobs.filter (fun j => j.id == jid) = [⟨jid, t2, a2⟩]) ∧
    Scheduler.add_job (Scheduler.add_job_replace s ⟨jid, t1, a1⟩) ⟨jid, t2, a2⟩ false =
      .error .conflictingId := by
  constructor
  · simp [Scheduler.add_job_replace, List.filter_filter]
  · simp [Scheduler.add_job, Scheduler.add_job_replace]

/-! ### C7: the periodic sync handler and its own registration -/

/-- C7 evaluation: executing `SchedulerService.sync_calendars` once, with
the recurring `calendar_sync` job registered, removes that very
registration (and never re-adds it), so the handler body does mutate the
recurring sync job, contradicting the claim. -/
theorem C7_sync_handler_removes_recurring_job :
    ((⟨[⟨"calendar_sync", 600, .recurringSync⟩], []⟩ : SchedState).jobs.any
        (fun j => j.id == "calendar_sync") = true) ∧
    ((SchedulerService.sync_calendars ⟨[⟨"calendar_sync", 600, .recurringSync⟩], []⟩
        [] 0).jobs.any (fun j => j.id == "calendar_sync") = false) := by
  constructor
  · rfl
  · rfl

/-! ### C1: fire times of the canonical escalation sequence -/

/-- C1 evaluation at the failing input: for the canonical 3-step sequence
started at `t0 = 0`, the code schedules `notification_step_evt1_0` at 0,
`notification_step_evt1_1` at 0 (the claim and the code comments say 3.0)
and `notification_step_evt1_2` at 3.0 (the claim says 6.0), while the
timeout is computed from the full delay sum and fires at 7.5: the loop adds
each step delay only after scheduling the step. -/
theorem C1_step_fire_times_evaluated :
    (ChronoAI.trigger_notification_flow
        ⟨⟨[], []⟩, ⟨true, false, [], []⟩, [], [], none, ⟨"User", 15, 5⟩⟩
        ⟨"evt1", "Standup", some 36000⟩ 0).toOption.map
        (fun a => a.sched.jobs.map (fun j => (j.id, j.runAt))) =
      some [("notification_timeout_evt1", 7.5), ("notification_step_evt1_2", 3),
            ("notification_step_evt1_1", 0), ("notification_step_evt1_0", 0)] := by
  rw [trigger_flow_eval
    ⟨⟨[], []⟩, ⟨true, false, [], []⟩, [], [], none, ⟨"User", 15, 5⟩⟩
    ⟨"evt1", "Standup", some 36000⟩ 0 (by decide) (by decide) (by decide) (by decide)]
  simp only [Except.toOption, Option.map, List.map, List.append_nil]
  refine congrArg some ?_
  simp only [List.cons.injEq, Prod.mk.injEq, List.nil_eq]
  refine ⟨⟨by decide, by norm_num⟩, ⟨by decide, by norm_num⟩,
    ⟨by decide, by norm_num⟩, ⟨by decide, by norm_num⟩, trivial⟩

/-! ### C2: resolution is not idempotent -/

/-- Counterexample to C2: in a state representing a resolved session (the
session jobs already removed, the first full-detail utterance recorded and
finished), invoking the acknowledge handler again speaks the full details a
second time: the spoken record grows from one to two utterances. -/
theorem C2_counterexample_second_acknowledge_speaks_again :
    ((⟨⟨[], []⟩, ⟨true, false, [("prior details utterance", 0.8)], []⟩,
        [], [], none, ⟨"User", 15, 5⟩⟩ : AppState).tts.spoken.length = 1) ∧
    ((ChronoAI.on_acknowledged
        ⟨⟨[], []⟩, ⟨true, false, [("prior details utterance", 0.8)], []⟩,
          [], [], none, ⟨"User", 15, 5⟩⟩
        ⟨"evt1", "Standup", some 36000⟩).toOption.map
        (fun a2 => a2.tts.spoken.length) = some 2) := by
  constructor
  · rfl
  · rfl

/-- C2 amended: re-invoking the handlers raises no error (the job removals
fail silently), but resolution is not idempotent.  A second acknowledge
stops any in-flight speech and speaks the event details again — one
additional utterance in every case.  The timeout handler checks no
resolved-session state: invoked after resolution it speaks the details
again whenever the engine is idle; only while an utterance is still in
flight does the overlap guard drop the request. -/
theorem C2_amended_resolution_not_idempotent (a : AppState) (e : Event) (st : ℚ)
    (hE : e.start_time = some st) (hinit : a.tts.initialized = true) :
    (∃ a2, ChronoAI.on_acknowledged a e = .ok a2 ∧
        a2.tts.spoken =
          (ChronoAI.details_text e st, max 0 (min 1 0.8)) :: a.tts.spoken) ∧
    (∃ a3, ChronoAI.on_timeout a e = .ok a3 ∧
        a3.tts.spoken =
          (if a.tts.isSpeaking then a.tts.spoken
           else (ChronoAI.details_text e st, max 0 (min 1 0.8)) :: a.tts.spoken)) := by
  constructor
  · simp only [ChronoAI.on_acknowledged, hE]
    refine ⟨_, rfl, ?_⟩
    unfold TTSEngine.speak TTSEngine.stop
    cases hsp : a.tts.isSpeaking <;> simp [hsp, hinit]
  · simp only [ChronoAI.on_timeout, hE]
    cases hp : a.popup.isSome <;>
      cases hsp : a.tts.isSpeaking <;>
      refine ⟨_, rfl, ?_⟩ <;>
      simp [hp, hsp, hinit, TTSEngine.speak]

/-- Witness for C2 amended, at an idle initialized engine. -/
theorem C2_witness :
    (∃ a2, ChronoAI.on_acknowledged
        ⟨⟨[], []⟩, ⟨true, false, [], []⟩, [], [], none, ⟨"User", 15, 5⟩⟩
        ⟨"evt1", "Standup", some 36000⟩ = .ok a2 ∧
        a2.tts.spoken =
          (ChronoAI.details_text ⟨"evt1", "Standup", some 36000⟩ 36000,
            max 0 (min 1 0.8)) :: ([] : List (String × ℚ))) ∧
    (∃ a3, ChronoAI.on_timeout
        ⟨⟨[], []⟩, ⟨true, false, [], []⟩, [], [], none, ⟨"User", 15, 5⟩⟩
        ⟨"evt1", "Standup", some 36000⟩ = .ok a3 ∧
        a3.tts.spoken =
          (ChronoAI.details_text ⟨"evt1", "Standup", some 36000⟩ 36000,
            max 0 (min 1 0.8)) :: ([] : List (String × ℚ))) :=
  C2_amended_resolution_not_idempotent
    ⟨⟨[], []⟩, ⟨true, false, [], []⟩, [], [], none, ⟨"User", 15, 5⟩⟩
    ⟨"evt1", "Standup", some 36000⟩ 36000 rfl rfl

/-! ### C6: snooze cancels the session and reschedules the top-level job -/

theorem remove_session_jobs_jobs (s : SchedState) (eid : String) :
    (ChronoAI.remove_session_jobs s eid).jobs =
      ((((s.jobs.filter (fun k => k.id != stepId eid 0)).filter
          (fun k => k.id != stepId eid 1)).filter
          (fun k => k.id != stepId eid 2)).filter (fun k => k.id != timeoutId eid)) := by
  simp only [ChronoAI.remove_session_jobs, remove_job_jobs]

/-- C6: snoozing an active session (i) cancels all of the session's step
jobs and its timeout job, (ii) stops in-progress audio, (iii) registers the
single pending `event_notification_<id>` job at `now + snooze_minutes` with
the restart action, (iv) emits the user-visible confirmation toast, and
(v) when that job's action fires at any later time `t2`, a brand-new
session begins from step 0 (step 0 is scheduled at the firing time). -/
theorem C6_snooze_cancels_and_reschedules (a : AppState) (e : Event) (now : ℚ)
    (hinit : a.tts.initialized = true) :
    ((ChronoAI.on_snoozed a e now).sched.jobs.all
        (fun k => (k.id != stepId e.id 0) && (k.id != stepId e.id 1) &&
          (k.id != stepId e.id 2) && (k.id != timeoutId e.id)) = true) ∧
    ((ChronoAI.on_snoozed a e now).tts.isSpeaking = false) ∧
    ((ChronoAI.on_snoozed a e now).sched.jobs.filter
        (fun k => k.id == notifId e.id) =
      [⟨notifId e.id, now + a.settings.snooze_duration * 60, .notifyFlow e⟩]) ∧
    ((ChronoAI.on_snoozed a e now).toasts =
      ("Snoozed", "Reminder for " ++ e.title ++ " snoozed for "
        ++ ChronoAI.time_str a.settings.snooze_duration ++ " minutes.") :: a.toasts) ∧
    (∀ t2 : ℚ, ∃ a3,
      ChronoAI.trigger_notification_flow (ChronoAI.on_snoozed a e now) e t2 = .ok a3 ∧
      (⟨stepId e.id 0, t2 + 0,
          .speak ("Psst, " ++ a.settings.user_name ++ "...") 0.2⟩ : Job)
        ∈ a3.sched.jobs) := by
  have hjobs : (ChronoAI.on_snoozed a e now).sched.jobs =
      (⟨notifId e.id, now + a.settings.snooze_duration * 60, .notifyFlow e⟩ : Job) ::
        (((((a.sched.jobs.filter (fun k => k.id != stepId e.id 0)).filter
            (fun k => k.id != stepId e.id 1)).filter
            (fun k => k.id != stepId e.id 2)).filter
            (fun k => k.id != timeoutId e.id)).filter
            (fun k => k.id != notifId e.id)) := by
    show (Scheduler.add_job_replace (ChronoAI.remove_session_jobs a.sched e.id) _).jobs = _
    simp only [Scheduler.add_job_replace, remove_session_jobs_jobs]
  have hchain : ∀ k ∈ (((((a.sched.jobs.filter (fun k => k.id != stepId e.id 0)).filter
      (fun k => k.id != stepId e.id 1)).filter
      (fun k => k.id != stepId e.id 2)).filter
      (fun k => k.id != timeoutId e.id)).filter
      (fun k => k.id != notifId e.id)),
      (k.id != stepId e.id 0) = true ∧ (k.id != stepId e.id 1) = true ∧
      (k.id != stepId e.id 2) = true ∧ (k.id != timeoutId e.id) = true ∧
      (k.id != notifId e.id) = true := by
    intro k hk
    simp only [List.mem_filter] at hk
    exact ⟨hk.1.1.1.1.2, hk.1.1.1.2, hk.1.1.2, hk.1.2, hk.2⟩
  have H0 : (ChronoAI.on_snoozed a e now).sched.jobs.all
      (fun k => k.id != stepId e.id 0) = true := by
    rw [hjobs]
    simp only [List.all_cons, Bool.and_eq_true]
    refine ⟨by simpa using notifId_ne_stepId e.id e.id 0, ?_⟩
    rw [List.all_eq_true]; intro k hk; exact (hchain k hk).1
  have H1 : (ChronoAI.on_snoozed a e now).sched.jobs.all
      (fun k => k.id != stepId e.id 1) = true := by
    rw [hjobs]
    simp only [List.all_cons, Bool.and_eq_true]
    refine ⟨by simpa using notifId_ne_stepId e.id e.id 1, ?_⟩
    rw [List.all_eq_true]; intro k hk; exact (hchain k hk).2.1
  have H2 : (ChronoAI.on_snoozed a e now).sched.jobs.all
      (fun k => k.id != stepId e.id 2) = true := by
    rw [hjobs]
    simp only [List.all_cons, Bool.and_eq_true]
    refine ⟨by simpa using notifId_ne_stepId e.id e.id 2, ?_⟩
    rw [List.all_eq_true]; intro k hk; exact (hchain k hk).2.2.1
  have HT : (ChronoAI.on_snoozed a e now).sched.jobs.all
      (fun k => k.id != timeoutId e.id) = true := by
    rw [hjobs]
    simp only [List.all_cons, Bool.and_eq_true]
    refine ⟨by simpa using notifId_ne_timeoutId e.id e.id, ?_⟩
    rw [List.all_eq_true]; intro k hk; exact (hchain k hk).2.2.2.1
  refine ⟨?_, ?_, ?_, ?_, ?_⟩
  · rw [List.all_eq_true]
    intro k hk
    rw [hjobs] at hk
    rcases List.mem_cons.mp hk with rfl | hk2
    · simp only [Bool.and_eq_true]
      refine ⟨⟨⟨?_, ?_⟩, ?_⟩, ?_⟩
      · simpa using notifId_ne_stepId e.id e.id 0
      · simpa using notifId_ne_stepId e.id e.id 1
      · simpa using notifId_ne_stepId e.id e.id 2
      · simpa using notifId_ne_timeoutId e.id e.id
    · obtain ⟨c0, c1, c2, ct, _⟩ := hchain k hk2
      simp only [Bool.and_eq_true]
      exact ⟨⟨⟨c0, c1⟩, c2⟩, ct⟩
  · show (TTSEngine.stop a.tts).isSpeaking = false
    unfold TTSEngine.stop
    cases hsp : a.tts.isSpeaking <;> simp [hsp, hinit]
  · rw [hjobs]
    rw [List.filter_cons_of_pos (by simp)]
    have hnil : (((((a.sched.jobs.filter (fun k => k.id != stepId e.id 0)).filter
        (fun k => k.id != stepId e.id 1)).filter
        (fun k => k.id != stepId e.id 2)).filter
        (fun k => k.id != timeoutId e.id)).filter
        (fun k => k.id != notifId e.id)).filter
        (fun k => k.id == notifId e.id) = [] := by
      rw [List.filter_eq_nil_iff]
      intro k hk
      have := (hchain k hk).2.2.2.2
      simp only [bne_iff_ne, ne_eq] at this
      simp [this]
    rw [hnil]
  · rfl
  · intro t2
    have H := trigger_flow_eval (ChronoAI.on_snoozed a e now) e t2 H0 H1 H2 HT
    refine ⟨_, H, ?_⟩
    have hset : (ChronoAI.on_snoozed a e now).settings = a.settings := rfl
    rw [hset]
    simp [List.mem_cons]

/-- Witness for C6 at a concrete idle state and event. -/
theorem C6_witness :
    ((ChronoAI.on_snoozed
        ⟨⟨[], []⟩, ⟨true, false, [], []⟩, [], [], none, ⟨"User", 15, 5⟩⟩
        ⟨"evt1", "Standup", some 36000⟩ 100).sched.jobs.all
        (fun k => (k.id != stepId "evt1" 0) && (k.id != stepId "evt1" 1) &&
          (k.id != stepId "evt1" 2) && (k.id != timeoutId "evt1")) = true) ∧
    ((ChronoAI.on_snoozed
        ⟨⟨[], []⟩, ⟨true, false, [], []⟩, [], [], none, ⟨"User", 15, 5⟩⟩
        ⟨"evt1", "Standup", some 36000⟩ 100).tts.isSpeaking = false) ∧
    ((ChronoAI.on_snoozed
        ⟨⟨[], []⟩, ⟨true, false, [], []⟩, [], [], none, ⟨"User", 15, 5⟩⟩
        ⟨"evt1", "Standup", some 36000⟩ 100).sched.jobs.filter
        (fun k => k.id == notifId "evt1") =
      [⟨notifId "evt1", 100 + 5 * 60, .notifyFlow ⟨"evt1", "Standup", some 36000⟩⟩]) ∧
    ((ChronoAI.on_snoozed
        ⟨⟨[], []⟩, ⟨true, false, [], []⟩, [], [], none, ⟨"User", 15, 5⟩⟩
        ⟨"evt1", "Standup", some 36000⟩ 100).toasts =
      [("Snoozed", "Reminder for " ++ "Standup" ++ " snoozed for "
        ++ ChronoAI.time_str 5 ++ " minutes.")]) ∧
    (∀ t2 : ℚ, ∃ a3,
      ChronoAI.trigger_notification_flow
        (ChronoAI.on_snoozed
          ⟨⟨[], []⟩, ⟨true, false, [], []⟩, [], [], none, ⟨"User", 15, 5⟩⟩
          ⟨"evt1", "Standup", some 36000⟩ 100)
        ⟨"evt1", "Standup", some 36000⟩ t2 = .ok a3 ∧
      (⟨stepId "evt1" 0, t2 + 0, .speak ("Psst, " ++ "User" ++ "...") 0.2⟩ : Job)
        ∈ a3.sched.jobs) :=
  C6_snooze_cancels_and_reschedules
    ⟨⟨[], []⟩, ⟨true, false, [], []⟩, [], [], none, ⟨"User", 15, 5⟩⟩
    ⟨"evt1", "Standup", some 36000⟩ 100 rfl

/-! ### Purge and rebuild lemmas (C4, C5) -/

theorem purge_fold_jobs (p : String) (l : List Job) :
    ∀ st : SchedState,
      (l.foldl (fun st j => if startswith j.id p then Scheduler.remove_job st j.id else st)
        st).jobs
        = st.jobs.filter
            (fun x => !(l.any (fun j => startswith j.id p && x.id == j.id))) := by
  induction l with
  | nil => intro st; simp
  | cons j rest ih =>
      intro st
      rw [List.foldl_cons, ih]
      by_cases hj : startswith j.id p = true
      · rw [if_pos hj, remove_job_jobs, List.filter_filter]
        apply List.filter_congr
        intro x hx
        rw [List.any_cons, hj]
        simp [Bool.not_or, bne, Bool.and_comm]
      · have hjf : startswith j.id p = false := by
          revert hj; cases startswith j.id p <;> simp
        rw [if_neg hj]
        apply List.filter_congr
        intro x hx
        rw [List.any_cons, hjf]
        simp

theorem purge_jobs_eq (s : SchedState) :
    (ChronoAI.purge_notification_jobs s).jobs
      = s.jobs.filter (fun x => !(startswith x.id "event_notification_")) := by
  unfold ChronoAI.purge_notification_jobs
  rw [purge_fold_jobs]
  apply List.filter_congr
  intro x hx
  cases hs : startswith x.id "event_notification_" with
  | true =>
      have hany : s.jobs.any
          (fun j => startswith j.id "event_notification_" && x.id == j.id) = true :=
        List.any_eq_true.mpr ⟨x, hx, by simp [hs]⟩
      rw [hany]
  | false =>
      have hany : s.jobs.any
          (fun j => startswith j.id "event_notification_" && x.id == j.id) = false := by
        rw [List.any_eq_false]
        intro j hj
        intro hcontra
        rw [Bool.and_eq_true] at hcontra
        have hxj : x.id = j.id := by simpa using hcontra.2
        rw [← hxj] at hcontra
        rw [hs] at hcontra
        exact Bool.false_ne_true hcontra.1
      rw [hany]

theorem schedule_fold_mem (rem now : ℚ) (events : List Event) :
    ∀ (a : AppState) (j : Job),
      j ∈ (events.foldl (ChronoAI.schedule_event rem now) a).sched.jobs →
      j ∈ a.sched.jobs ∨
        ∃ e2 ∈ events, j.id = notifId e2.id ∧
          ∃ st2, e2.start_time = some st2 ∧ now < st2 - rem * 60 := by
  induction events with
  | nil => intro a j h; exact .inl h
  | cons e rest ih =>
      intro a j h
      rw [List.foldl_cons] at h
      rcases ih _ j h with h1 | ⟨e2, he2, hid, hcond⟩
      · unfold ChronoAI.schedule_event at h1
        cases hst : e.start_time with
        | none =>
            simp only [hst] at h1
            exact .inl h1
        | some st =>
            simp only [hst] at h1
            by_cases hf : now < st - rem * 60
            · rw [if_pos hf] at h1
              simp only [Scheduler.add_job_replace, List.mem_cons] at h1
              rcases h1 with rfl | h1
              · exact .inr ⟨e, List.mem_cons_self e rest, rfl, st, hst, hf⟩
              · exact .inl (List.mem_of_mem_filter h1)
            · rw [if_neg hf] at h1
              exact .inl h1
      · exact .inr ⟨e2, List.mem_cons_of_mem e he2, hid, hcond⟩

theorem schedule_event_preserves (rem now : ℚ) (a : AppState) (e : Event) :
    (ChronoAI.schedule_event rem now a e).displayed = a.displayed ∧
    (ChronoAI.schedule_event rem now a e).settings = a.settings := by
  unfold ChronoAI.schedule_event
  refine ⟨?_, ?_⟩ <;> split <;> first | rfl | (split <;> rfl)

theorem schedule_fold_preserves (rem now : ℚ) (events : List Event) :
    ∀ a : AppState,
      (events.foldl (ChronoAI.schedule_event rem now) a).displayed = a.displayed ∧
      (events.foldl (ChronoAI.schedule_event rem now) a).settings = a.settings := by
  induction events with
  | nil => intro a; exact ⟨rfl, rfl⟩
  | cons e rest ih =>
      intro a
      rw [List.foldl_cons]
      refine ⟨?_, ?_⟩
      · rw [(ih _).1, (schedule_event_preserves rem now a e).1]
      · rw [(ih _).2, (schedule_event_preserves rem now a e).2]

theorem schedule_fold_id_mono (rem now : ℚ) (jid : String) (events : List Event) :
    ∀ a : AppState,
      a.sched.jobs.any (fun k => k.id == jid) = true →
      (events.foldl (ChronoAI.schedule_event rem now) a).sched.jobs.any
        (fun k => k.id == jid) = true := by
  induction events with
  | nil => intro a h; exact h
  | cons e rest ih =>
      intro a h
      rw [List.foldl_cons]
      apply ih
      unfold ChronoAI.schedule_event
      split
      · exact h
      · split
        · show (Scheduler.add_job_replace a.sched _).jobs.any (fun k => k.id == jid) = true
          simp only [Scheduler.add_job_replace, List.any_cons]
          by_cases hj : notifId e.id = jid
          · simp [hj]
          · rcases List.any_eq_true.mp h with ⟨k, hk, hkq⟩
            have hkid : k.id = jid := by simpa using hkq
            have hmem : k ∈ a.sched.jobs.filter (fun x => x.id != notifId e.id) := by
              refine List.mem_filter.mpr ⟨hk, ?_⟩
              rw [hkid]
              simpa using fun hcontra : jid = notifId e.id => hj hcontra.symm
            have hany2 : (a.sched.jobs.filter (fun x => x.id != notifId e.id)).any
                (fun k => k.id == jid) = true :=
              List.any_eq_true.mpr ⟨k, hmem, hkq⟩
            simp [hany2]
        · exact h

/-! ### C5: past events are skipped but still displayed -/

/-- C5: for an event whose notification time `start_time - reminder_minutes`
is not strictly in the future at sync time (and that no other fetched event
shares its id with a different start time), a sync displays the full
fetched list — the event included — but creates no notification job for it. -/
theorem C5_skip_past (a : AppState) (events : List Event) (now : ℚ) (e : Event) (tE : ℚ)
    (he : e ∈ events) (hparse : e.start_time = some tE)
    (hpast : tE - a.settings.reminder_time * 60 ≤ now)
    (huniq : ∀ e2 ∈ events, e2.id = e.id → e2.start_time = some tE) :
    ((ChronoAI.sync_calendars a events now).displayed = events) ∧
    (e ∈ (ChronoAI.sync_calendars a events now).displayed) ∧
    (∀ j ∈ (ChronoAI.sync_calendars a events now).sched.jobs, j.id ≠ notifId e.id) := by
  have hdisp : (ChronoAI.sync_calendars a events now).displayed = events := by
    show (events.foldl (ChronoAI.schedule_event a.settings.reminder_time now)
      { a with
        toasts := ("ChronoAI", "Syncing calendars...") :: a.toasts,
        displayed := events,
        sched := ChronoAI.purge_notification_jobs a.sched }).displayed = events
    rw [(schedule_fold_preserves a.settings.reminder_time now events _).1]
  refine ⟨hdisp, by rw [hdisp]; exact he, ?_⟩
  intro j hj
  have hj1 : j ∈ (events.foldl (ChronoAI.schedule_event a.settings.reminder_time now)
      { a with
        toasts := ("ChronoAI", "Syncing calendars...") :: a.toasts,
        displayed := events,
        sched := ChronoAI.purge_notification_jobs a.sched }).sched.jobs := hj
  rcases schedule_fold_mem a.settings.reminder_time now events _ j hj1 with
    h1 | ⟨e2, he2, hid, st2, hst2, hfut⟩
  · have h1b : j ∈ (ChronoAI.purge_notification_jobs a.sched).jobs := h1
    rw [purge_jobs_eq] at h1b
    have hpre := (List.mem_filter.mp h1b).2
    intro heq
    rw [heq, startswith_notifId] at hpre
    simp at hpre
  · intro heq
    have hsame : e2.id = e.id := notifId_inj (hid.symm.trans heq)
    have hE2 : e2.start_time = some tE := huniq e2 he2 hsame
    have hst : st2 = tE := Option.some.inj (hst2.symm.trans hE2)
    rw [hst] at hfut
    exact absurd hfut (not_lt.mpr hpast)

/-- Witness for C5: an event whose reminder window has already passed. -/
theorem C5_witness :
    ((ChronoAI.sync_calendars
        ⟨⟨[], []⟩, ⟨true, false, [], []⟩, [], [], none, ⟨"User", 15, 5⟩⟩
        [⟨"E", "Past", some 900⟩] 0).displayed = [⟨"E", "Past", some 900⟩]) ∧
    ((⟨"E", "Past", some 900⟩ : Event) ∈ (ChronoAI.sync_calendars
        ⟨⟨[], []⟩, ⟨true, false, [], []⟩, [], [], none, ⟨"User", 15, 5⟩⟩
        [⟨"E", "Past", some 900⟩] 0).displayed) ∧
    (∀ j ∈ (ChronoAI.sync_calendars
        ⟨⟨[], []⟩, ⟨true, false, [], []⟩, [], [], none, ⟨"User", 15, 5⟩⟩
        [⟨"E", "Past", some 900⟩] 0).sched.jobs, j.id ≠ notifId "E") :=
  C5_skip_past
    ⟨⟨[], []⟩, ⟨true, false, [], []⟩, [], [], none, ⟨"User", 15, 5⟩⟩
    [⟨"E", "Past", some 900⟩] 0 ⟨"E", "Past", some 900⟩ 900
    (List.mem_singleton.mpr rfl) rfl (by norm_num)
    (by intro e2 he2 h2; rw [List.mem_singleton.mp he2])

/-! ### C4: purge before rebuild -/

/-- C4: every sync pass first purges each pending job whose id carries the
`event_notification_` namespace prefix; consequently, starting from a state
holding no jobs of event A, a sync over `{A, B}` (which schedules A) followed
by a sync returning only `{B}` leaves no job of any kind for A. -/
theorem C4_purge_then_rebuild (a0 : AppState) (A B : Event) (tA now now2 : ℚ)
    (hA : A.start_time = some tA)
    (hAfut : now < tA - a0.settings.reminder_time * 60)
    (hAB : A.id ≠ B.id)
    (h0 : ∀ j ∈ a0.sched.jobs, j.id ∉ sessionJobIds A.id) :
    (∀ s : SchedState, ∀ j ∈ (ChronoAI.purge_notification_jobs s).jobs,
        startswith j.id "event_notification_" = false) ∧
    ((ChronoAI.sync_calendars a0 [A, B] now).sched.jobs.any
        (fun k => k.id == notifId A.id) = true) ∧
    (∀ j ∈ (ChronoAI.sync_calendars (ChronoAI.sync_calendars a0 [A, B] now)
        [B] now2).sched.jobs, j.id ∉ sessionJobIds A.id) := by
  refine ⟨?_, ?_, ?_⟩
  · intro s j hj
    rw [purge_jobs_eq] at hj
    have hpre := (List.mem_filter.mp hj).2
    simpa using hpre
  · show (List.foldl (ChronoAI.schedule_event a0.settings.reminder_time now)
      { a0 with
        toasts := ("ChronoAI", "Syncing calendars...") :: a0.toasts,
        displayed := [A, B],
        sched := ChronoAI.purge_notification_jobs a0.sched }
      [A, B]).sched.jobs.any (fun k => k.id == notifId A.id) = true
    rw [List.foldl_cons]
    apply schedule_fold_id_mono
    unfold ChronoAI.schedule_event
    simp only [hA]
    rw [if_pos hAfut]
    simp [Scheduler.add_job_replace]
  · intro j hj
    have hj1 : j ∈ (List.foldl
        (ChronoAI.schedule_event
          (ChronoAI.sync_calendars a0 [A, B] now).settings.reminder_time now2)
        { ChronoAI.sync_calendars a0 [A, B] now with
          toasts := ("ChronoAI", "Syncing calendars...")
            :: (ChronoAI.sync_calendars a0 [A, B] now).toasts,
          displayed := [B],
          sched := ChronoAI.purge_notification_jobs
            (ChronoAI.sync_calendars a0 [A, B] now).sched }
        [B]).sched.jobs := hj
    rcases schedule_fold_mem _ now2 [B] _ j hj1 with h1 | ⟨e2, he2, hid, _⟩
    · have h1b : j ∈ (ChronoAI.purge_notification_jobs
          (ChronoAI.sync_calendars a0 [A, B] now).sched).jobs := h1
      rw [purge_jobs_eq] at h1b
      obtain ⟨hmem1, hnpre⟩ := List.mem_filter.mp h1b
      have hmem2 : j ∈ (List.foldl
          (ChronoAI.schedule_event a0.settings.reminder_time now)
          { a0 with
            toasts := ("ChronoAI", "Syncing calendars...") :: a0.toasts,
            displayed := [A, B],
            sched := ChronoAI.purge_notification_jobs a0.sched }
          [A, B]).sched.jobs := hmem1
      rcases schedule_fold_mem _ now [A, B] _ j hmem2 with h2 | ⟨e3, _, hid3, _⟩
      · have h2b : j ∈ (ChronoAI.purge_notification_jobs a0.sched).jobs := h2
        rw [purge_jobs_eq] at h2b
        exact h0 j (List.mem_of_mem_filter h2b)
      · exfalso
        rw [hid3, startswith_notifId] at hnpre
        simp at hnpre
    · have he2b : e2 = B := by simpa using he2
      subst he2b
      rw [hid]
      intro hmem
      simp only [sessionJobIds, List.mem_cons] at hmem
      rcases hmem with h | h | h | h | h | h
      · exact hAB (notifId_inj h).symm
      · exact notifId_ne_stepId e2.id A.id 0 h
      · exact notifId_ne_stepId e2.id A.id 1 h
      · exact notifId_ne_stepId e2.id A.id 2 h
      · exact notifId_ne_timeoutId e2.id A.id h
      · exact (List.not_mem_nil _) h

/-- Witness for C4 with two concrete future events. -/
theorem C4_witness :
    (∀ s : SchedState, ∀ j ∈ (ChronoAI.purge_notification_jobs s).jobs,
        startswith j.id "event_notification_" = false) ∧
    ((ChronoAI.sync_calendars
        ⟨⟨[], []⟩, ⟨true, false, [], []⟩, [], [], none, ⟨"User", 15, 5⟩⟩
        [⟨"A", "EventA", some 36000⟩, ⟨"B", "EventB", some 40000⟩] 0).sched.jobs.any
        (fun k => k.id == notifId "A") = true) ∧
    (∀ j ∈ (ChronoAI.sync_calendars
        (ChronoAI.sync_calendars
          ⟨⟨[], []⟩, ⟨true, false, [], []⟩, [], [], none, ⟨"User", 15, 5⟩⟩
          [⟨"A", "EventA", some 36000⟩, ⟨"B", "EventB", some 40000⟩] 0)
        [⟨"B", "EventB", some 40000⟩] 10).sched.jobs,
      j.id ∉ sessionJobIds "A") :=
  C4_purge_then_rebuild
    ⟨⟨[], []⟩, ⟨true, false, [], []⟩, [], [], none, ⟨"User", 15, 5⟩⟩
    ⟨"A", "EventA", some 36000⟩ ⟨"B", "EventB", some 40000⟩ 36000 0 10
    rfl (by norm_num) (by decide) (by simp)

/-! ### C10: get_unified_events never raises -/

/-- C10: `get_unified_events` is total (the parse failure during sorting is
caught).  With no connected provider it returns `[]`; when some merged
event's `start_time` fails to parse, it returns the merged list in original
concatenation order (Google then Zoho — CPython computes all sort keys
before reordering, so the caught exception leaves the list untouched); and
when every start time parses it returns the concatenation sorted by the
parsed start times. -/
theorem C10_get_unified_events_robust (p : Providers) :
    (p.googleConnected = false → p.zohoConnected = false →
      EventManager.get_unified_events p = []) ∧
    ((∃ e ∈ EventManager.all_events p, e.start_time = none) →
      EventManager.get_unified_events p = EventManager.all_events p) ∧
    ((∀ e ∈ EventManager.all_events p, e.start_time.isSome = true) →
      (EventManager.get_unified_events p).Perm (EventManager.all_events p) ∧
        List.Sorted EventManager.startLE (EventManager.get_unified_events p)) := by
  refine ⟨?_, ?_, ?_⟩
  · intro hg hz
    unfold EventManager.get_unified_events EventManager.all_events
    rw [hg, hz]
    simp
  · intro ⟨e, he, hn⟩
    simp only [EventManager.get_unified_events]
    have hne : (EventManager.all_events p).isEmpty = false := by
      cases hl : EventManager.all_events p with
      | nil => rw [hl] at he; exact absurd he (List.not_mem_nil e)
      | cons x xs => rfl
    rw [hne]
    have hnotall : (EventManager.all_events p).all (fun e => e.start_time.isSome) = false := by
      rw [List.all_eq_false]
      exact ⟨e, he, by simp [hn]⟩
    rw [hnotall]
    simp
  · intro hall
    simp only [EventManager.get_unified_events]
    cases hl : (EventManager.all_events p).isEmpty with
    | true =>
        have hnil : EventManager.all_events p = [] := by
          cases hm : EventManager.all_events p with
          | nil => rfl
          | cons x xs => rw [hm] at hl; exact absurd hl (by simp)
        rw [hnil]
        simp
    | false =>
        have hallb : (EventManager.all_events p).all (fun e => e.start_time.isSome) = true := by
          rw [List.all_eq_true]
          intro x hx
          exact hall x hx
        rw [hallb]
        constructor
        · simpa using List.perm_insertionSort EventManager.startLE (EventManager.all_events p)
        · simpa using List.sorted_insertionSort EventManager.startLE (EventManager.all_events p)

/-- Witness for C10: a malformed Zoho event keeps concatenation order; two
well-formed events come back as a sorted permutation. -/
theorem C10_witness :
    (EventManager.get_unified_events
        ⟨true, true, [⟨"g1", "G", some 10⟩], [⟨"z1", "Z", none⟩]⟩
      = EventManager.all_events
        ⟨true, true, [⟨"g1", "G", some 10⟩], [⟨"z1", "Z", none⟩]⟩) ∧
    ((EventManager.get_unified_events
        ⟨true, true, [⟨"g1", "G", some 10⟩], [⟨"z1", "Z", some 5⟩]⟩).Perm
      (EventManager.all_events
        ⟨true, true, [⟨"g1", "G", some 10⟩], [⟨"z1", "Z", some 5⟩]⟩) ∧
      List.Sorted EventManager.startLE
        (EventManager.get_unified_events
          ⟨true, true, [⟨"g1", "G", some 10⟩], [⟨"z1", "Z", some 5⟩]⟩)) :=
  ⟨(C10_get_unified_events_robust
      ⟨true, true, [⟨"g1", "G", some 10⟩], [⟨"z1", "Z", none⟩]⟩).2.1
      ⟨⟨"z1", "Z", none⟩, by simp [EventManager.all_events], rfl⟩,
   (C10_get_unified_events_robust
      ⟨true, true, [⟨"g1", "G", some 10⟩], [⟨"z1", "Z", some 5⟩]⟩).2.2
      (by intro e he; revert he; simp [EventManager.all_events]; rintro (rfl | rfl) <;> rfl)⟩
